import Mathlib

/-!
Verification of the C bridge layer in `Sources/CKalliopeBridge/CKalliope.c`
and `Sources/CLinusBridge/CLinusBridge.c`.

The repository is foreign-function glue: each forwarding function performs a
single call into an external arbitrary-precision library (a GMP-like one and
an MPFR-like one) and returns its result verbatim, plus two POSIX helpers
that redirect the process standard input to a file and later restore it.

The embedding has three parts:

* a call-trace model of the two external libraries: each wrapper, given the
  library's behaviour as a function from calls to results, returns the
  result together with the list of external calls it issued;
* the two MPFR precision-bound constants, modelled from the spec because
  they are macros of the external library, not code of this repository;
* a small state model of the POSIX primitives (`freopen`, `dup2`,
  `clearerr`, `rewind`, `fgetc`) used by the stdin redirection helpers.
-/

/-! ## Opaque boundary values

Pointers, `va_list` captures and stream handles cross the boundary as opaque
values the bridge never inspects; we represent each by a `Nat` token, and a
format string or in-memory source string by a `String`. -/

abbrev VaList := Nat
abbrev Ptr := Nat

/-! ## Call-trace model of the GMP-like library

One constructor per external entry point reachable from
`Sources/CKalliopeBridge/CKalliope.c`, carrying exactly the arguments the
C code passes through. -/

inductive GmpCall where
  | vprintf (fmt : String) (ap : VaList)
  | vfprintf (stream : Ptr) (fmt : String) (ap : VaList)
  | vsprintf (buf : Ptr) (fmt : String) (ap : VaList)
  | vsnprintf (buf : Ptr) (size : Nat) (fmt : String) (ap : VaList)
  | vasprintf (pp : Ptr) (fmt : String) (ap : VaList)
  | vscanf (fmt : String) (ap : VaList)
  | vfscanf (stream : Ptr) (fmt : String) (ap : VaList)
  | vsscanf (s : String) (fmt : String) (ap : VaList)
deriving DecidableEq, Repr

/-- The external GMP-like library as an oracle: the `int` result it returns
for a given call. Its side effects are its own; the bridge neither observes
nor alters them. -/
abbrev GmpLib := GmpCall → Int

/-- `ckalliope_vprintf`: `return __gmp_vprintf(fmt, ap);` — the result paired
with the trace of external calls performed. -/
def ckalliope_vprintf (lib : GmpLib) (fmt : String) (ap : VaList) :
    Int × List GmpCall :=
  (lib (GmpCall.vprintf fmt ap), [GmpCall.vprintf fmt ap])

/-- `ckalliope_vfprintf`: `return __gmp_vfprintf((FILE *)stream, fmt, ap);` -/
def ckalliope_vfprintf (lib : GmpLib) (stream : Ptr) (fmt : String)
    (ap : VaList) : Int × List GmpCall :=
  (lib (GmpCall.vfprintf stream fmt ap), [GmpCall.vfprintf stream fmt ap])

/-- `ckalliope_vsprintf`: `return __gmp_vsprintf(buf, fmt, ap);` -/
def ckalliope_vsprintf (lib : GmpLib) (buf : Ptr) (fmt : String)
    (ap : VaList) : Int × List GmpCall :=
  (lib (GmpCall.vsprintf buf fmt ap), [GmpCall.vsprintf buf fmt ap])

/-- `ckalliope_vsnprintf`: `return __gmp_vsnprintf(buf, size, fmt, ap);` -/
def ckalliope_vsnprintf (lib : GmpLib) (buf : Ptr) (size : Nat)
    (fmt : String) (ap : VaList) : Int × List GmpCall :=
  (lib (GmpCall.vsnprintf buf size fmt ap),
   [GmpCall.vsnprintf buf size fmt ap])

/-- `ckalliope_vasprintf`: `return __gmp_vasprintf(pp, fmt, ap);` -/
def ckalliope_vasprintf (lib : GmpLib) (pp : Ptr) (fmt : String)
    (ap : VaList) : Int × List GmpCall :=
  (lib (GmpCall.vasprintf pp fmt ap), [GmpCall.vasprintf pp fmt ap])

/-- `ckalliope_vscanf`: `return __gmp_vscanf(fmt, ap);` -/
def ckalliope_vscanf (lib : GmpLib) (fmt : String) (ap : VaList) :
    Int × List GmpCall :=
  (lib (GmpCall.vscanf fmt ap), [GmpCall.vscanf fmt ap])

/-- `ckalliope_vfscanf`: `return __gmp_vfscanf((FILE *)stream, fmt, ap);` -/
def ckalliope_vfscanf (lib : GmpLib) (stream : Ptr) (fmt : String)
    (ap : VaList) : Int × List GmpCall :=
  (lib (GmpCall.vfscanf stream fmt ap), [GmpCall.vfscanf stream fmt ap])

/-- `ckalliope_vsscanf`: `return __gmp_vsscanf(s, fmt, ap);` -/
def ckalliope_vsscanf (lib : GmpLib) (s : String) (fmt : String)
    (ap : VaList) : Int × List GmpCall :=
  (lib (GmpCall.vsscanf s fmt ap), [GmpCall.vsscanf s fmt ap])

/-! ## Call-trace model of the MPFR-like library -/

inductive MpfrCall where
  | vprintf (fmt : String) (ap : VaList)
  | vfprintf (stream : Ptr) (fmt : String) (ap : VaList)
  | rint_floor (rop : Ptr) (op : Ptr) (rnd : Int)
  | rint_ceil (rop : Ptr) (op : Ptr) (rnd : Int)
  | rint_trunc (rop : Ptr) (op : Ptr) (rnd : Int)
deriving DecidableEq, Repr

/-- The external MPFR-like library as an oracle from calls to `int` results
(for the `rint` family, the ternary status code). -/
abbrev MpfrLib := MpfrCall → Int

/-- `clinus_mpfr_vprintf`: `return mpfr_vprintf(fmt, ap);` -/
def clinus_mpfr_vprintf (lib : MpfrLib) (fmt : String) (ap : VaList) :
    Int × List MpfrCall :=
  (lib (MpfrCall.vprintf fmt ap), [MpfrCall.vprintf fmt ap])

/-- `clinus_mpfr_vfprintf`: `return mpfr_vfprintf((FILE *)stream, fmt, ap);` -/
def clinus_mpfr_vfprintf (lib : MpfrLib) (stream : Ptr) (fmt : String)
    (ap : VaList) : Int × List MpfrCall :=
  (lib (MpfrCall.vfprintf stream fmt ap), [MpfrCall.vfprintf stream fmt ap])

/-- `clinus_mpfr_rint_floor`:
`return mpfr_rint_floor((mpfr_ptr)rop, (mpfr_srcptr)op, (mpfr_rnd_t)rnd);` -/
def clinus_mpfr_rint_floor (lib : MpfrLib) (rop : Ptr) (op : Ptr)
    (rnd : Int) : Int × List MpfrCall :=
  (lib (MpfrCall.rint_floor rop op rnd), [MpfrCall.rint_floor rop op rnd])

/-- `clinus_mpfr_rint_ceil`:
`return mpfr_rint_ceil((mpfr_ptr)rop, (mpfr_srcptr)op, (mpfr_rnd_t)rnd);` -/
def clinus_mpfr_rint_ceil (lib : MpfrLib) (rop : Ptr) (op : Ptr)
    (rnd : Int) : Int × List MpfrCall :=
  (lib (MpfrCall.rint_ceil rop op rnd), [MpfrCall.rint_ceil rop op rnd])

/-- `clinus_mpfr_rint_trunc`:
`return mpfr_rint_trunc((mpfr_ptr)rop, (mpfr_srcptr)op, (mpfr_rnd_t)rnd);` -/
def clinus_mpfr_rint_trunc (lib : MpfrLib) (rop : Ptr) (op : Ptr)
    (rnd : Int) : Int × List MpfrCall :=
  (lib (MpfrCall.rint_trunc rop op rnd), [MpfrCall.rint_trunc rop op rnd])

/-! ## Precision-bound constants -/

/-- Modelled from the spec: `MPFR_PREC_MIN` is a build-time macro constant of
the external MPFR library (header not part of this repository); the spec
fixes it as an immutable integer set at library build time. Value of a
typical 64-bit build. -/
def MPFR_PREC_MIN : Int := 1

/-- Modelled from the spec: `MPFR_PREC_MAX` is a build-time macro constant of
the external MPFR library (header not part of this repository); value of a
typical 64-bit build (`mpfr_prec_t` is a signed 64-bit `long`). -/
def MPFR_PREC_MAX : Int := 2 ^ 63 - 257

/-- `clinus_get_prec_min`: `return MPFR_PREC_MIN;` (takes `void`; the `Unit`
argument stands for one call within the process lifetime). -/
def clinus_get_prec_min (_ : Unit) : Int := MPFR_PREC_MIN

/-- `clinus_get_prec_max`: `return MPFR_PREC_MAX;` -/
def clinus_get_prec_max (_ : Unit) : Int := MPFR_PREC_MAX

/-! ## POSIX state model for the stdin redirection helpers

The helpers call five external primitives: `freopen(path, "r", stdin)`,
`clearerr(stdin)`, `rewind(stdin)`, `dup2(fd, STDIN_FILENO)` and
`freopen(NULL, "r", stdin)`. These primitives are operating-system code, not
code of this repository, so they are modelled from the spec and from the
source's own comments about them. -/

/-- What an open descriptor ultimately reads from: a named file, or some
other pre-existing source (terminal, pipe) identified by a token. -/
inductive Source where
  | file (path : String)
  | other (id : Nat)
deriving DecidableEq, Repr

/-- A kernel-side open-descriptor entry: its source and read position. -/
structure OpenDesc where
  src : Source
  pos : Nat
deriving DecidableEq, Repr

/-- The `stdin` `FILE` object: whether it is open, the descriptor number it
sits atop, and its error / end-of-file indicators. -/
structure StreamObj where
  isOpen : Bool
  fd : Nat
  err : Bool
  eof : Bool
deriving DecidableEq, Repr

/-- Process-wide state visible to the helpers: the descriptor table, the
`stdin` stream object, and an opaque token standing for all output-side
stream state (stdout/stderr buffering), which the helpers never touch. -/
structure ProcState where
  fds : Nat → Option OpenDesc
  stdinObj : StreamObj
  outState : Nat

/-- The operating-system environment a run happens in: which paths can be
opened for reading (and their byte contents), the pointer value a successful
`freopen` on `stdin` returns, and whether the `freopen(NULL, ...)` reopen
extension fails on this system (the source notes it "may not be available on
all systems"). A POSIX-conforming C library returns the stream argument
itself from a successful `freopen`, i.e. `freopenPtr = STDIN_PTR`. -/
structure OsEnv where
  files : String → Option (List Nat)
  freopenPtr : Ptr
  freopenNullFails : Bool

/-- Descriptor number reserved for standard input. -/
def STDIN_FILENO : Nat := 0

/-- Address of the process's `stdin` `FILE` object (the value of the global
`stdin` pointer, which `freopen` never changes). -/
def STDIN_PTR : Ptr := 100

/-- Modelled from the spec: `freopen(path, "r", stdin)`. The source comment
describes it as atomically closing the old stream and opening the new file;
on open failure it returns `NULL` with standard input left as it was, on
success it rebinds descriptor 0 and the `stdin` object to the file at
position 0 and returns the environment's `freopen` result pointer. -/
def freopen_file (env : OsEnv) (path : String) (s : ProcState) :
    Option Ptr × ProcState :=
  match env.files path with
  | none => (none, s)
  | some _ =>
      (some env.freopenPtr,
       { s with
           fds := fun n =>
             if n = STDIN_FILENO then some ⟨Source.file path, 0⟩ else s.fds n,
           stdinObj := ⟨true, STDIN_FILENO, false, false⟩ })

/-- Modelled from the spec: `clearerr(stdin)` clears the error and
end-of-file indicators of the `stdin` stream. -/
def clearerr_stdin (s : ProcState) : ProcState :=
  { s with stdinObj := { s.stdinObj with err := false, eof := false } }

/-- Modelled from the spec: `rewind(stdin)` sets the stream's read position
back to the start of the file and clears the error and end-of-file
indicators. -/
def rewind_stdin (s : ProcState) : ProcState :=
  { s with
      fds := fun n =>
        if n = s.stdinObj.fd then (s.fds n).map (fun d => { d with pos := 0 })
        else s.fds n,
      stdinObj := { s.stdinObj with err := false, eof := false } }

/-- Modelled from the spec: `dup2(oldfd, newfd)` re-binds descriptor `newfd`
to the open file named by `oldfd`, returning `newfd`; it fails with `-1` and
no state change when `oldfd` is not an open descriptor. -/
def dup2 (oldfd newfd : Nat) (s : ProcState) : Int × ProcState :=
  match s.fds oldfd with
  | none => (-1, s)
  | some d =>
      ((newfd : Int),
       { s with fds := fun n => if n = newfd then some d else s.fds n })

/-- Modelled from the spec: `freopen(NULL, "r", stdin)`, the POSIX extension
re-establishing the `stdin` stream object atop its current descriptor. It
fails (returning `NULL`, leaving the stream closed) when the extension is
unavailable on the system or descriptor 0 is not open; otherwise it yields a
fresh stream object atop descriptor 0. -/
def freopen_null_stdin (env : OsEnv) (s : ProcState) :
    Option Ptr × ProcState :=
  if env.freopenNullFails then
    (none, { s with stdinObj := { s.stdinObj with isOpen := false } })
  else
    match s.fds STDIN_FILENO with
    | none => (none, { s with stdinObj := { s.stdinObj with isOpen := false } })
    | some _ =>
        (some env.freopenPtr,
         { s with stdinObj := ⟨true, STDIN_FILENO, false, false⟩ })

/-- Modelled from the spec: `fgetc(stdin)` — one read from standard input,
via the descriptor the `stdin` object sits atop; yields the byte at the
current position and advances it, or `none` at end of input. Used to state
the observable consequence of a redirect. -/
def fgetc_stdin (env : OsEnv) (s : ProcState) : Option Nat × ProcState :=
  match s.fds s.stdinObj.fd with
  | none => (none, { s with stdinObj := { s.stdinObj with err := true } })
  | some d =>
      match d.src with
      | Source.file p =>
          match (env.files p).bind (fun bs => bs.get? d.pos) with
          | none => (none, { s with stdinObj := { s.stdinObj with eof := true } })
          | some b =>
              (some b,
               { s with fds := fun n =>
                   if n = s.stdinObj.fd then some { d with pos := d.pos + 1 }
                   else s.fds n })
      | Source.other _ => (none, s)

/-- `ckalliope_redirect_stdin_from_file`, from
`Sources/CKalliopeBridge/CKalliope.c`: `freopen(filepath, "r", stdin)`;
`-1` if it returned `NULL`; `-1` if the result is not `stdin`; otherwise
`clearerr(stdin)`, `rewind(stdin)`, return `0`. -/
def ckalliope_redirect_stdin_from_file (env : OsEnv) (filepath : String)
    (s : ProcState) : Int × ProcState :=
  match freopen_file env filepath s with
  | (none, s1) => (-1, s1)
  | (some p, s1) =>
      if p ≠ STDIN_PTR then (-1, s1)
      else (0, rewind_stdin (clearerr_stdin s1))

/-- `ckalliope_restore_stdin`, from
`Sources/CKalliopeBridge/CKalliope.c`: `dup2(original_fd, STDIN_FILENO)`,
`-1` if that is negative; `freopen(NULL, "r", stdin)`, `-1` if it returned
`NULL`; `-1` if the result is not `stdin`; otherwise `clearerr(stdin)` and
return `0`. -/
def ckalliope_restore_stdin (env : OsEnv) (original_fd : Nat)
    (s : ProcState) : Int × ProcState :=
  match dup2 original_fd STDIN_FILENO s with
  | (r1, s1) =>
      if r1 < 0 then (-1, s1)
      else
        match freopen_null_stdin env s1 with
        | (none, s2) => (-1, s2)
        | (some p, s2) =>
            if p ≠ STDIN_PTR then (-1, s2)
            else (0, clearerr_stdin s2)

/-! ## Concrete fixtures used by the witness theorems -/

/-- A concrete initial process state: standard input bound to a terminal-like
source, a spare saved descriptor at 5, everything else closed. -/
def s0 : ProcState where
  fds := fun n =>
    if n = 0 then some ⟨Source.other 7, 3⟩
    else if n = 5 then some ⟨Source.other 7, 3⟩
    else none
  stdinObj := ⟨true, 0, false, false⟩
  outState := 42

/-- A concrete POSIX-conforming environment: one readable file `in.txt`
containing the byte 51, `freopen` returning `stdin` on success, the
`freopen(NULL, ...)` extension available. -/
def env0 : OsEnv where
  files := fun p => if p = "in.txt" then some [51, 46, 49] else none
  freopenPtr := STDIN_PTR
  freopenNullFails := false

/-- A concrete environment whose C library returns a pointer other than
`stdin` from a successful `freopen`, exercising the defensive post-condition
branches. -/
def envBad : OsEnv where
  files := fun p => if p = "in.txt" then some [51, 46, 49] else none
  freopenPtr := 999
  freopenNullFails := false

/-- A concrete environment on which the `freopen(NULL, ...)` reopen
extension fails. -/
def envNoNull : OsEnv where
  files := fun p => if p = "in.txt" then some [51, 46, 49] else none
  freopenPtr := STDIN_PTR
  freopenNullFails := true

/-- The state reached by a successful redirect of `s0` to `in.txt` under
`env0`, used to compare restore's behaviour with and without a preceding
redirect. -/
def sRedir : ProcState := (ckalliope_redirect_stdin_from_file env0 "in.txt" s0).2

/-! ## Theorems -/

/-- C1: for every format string, argument list, and target, each variadic
forwarding function (`ckalliope_vprintf`, `ckalliope_vfprintf`,
`ckalliope_vsprintf`, `ckalliope_vsnprintf`, `ckalliope_vasprintf`,
`ckalliope_vscanf`, `ckalliope_vfscanf`, `ckalliope_vsscanf`,
`clinus_mpfr_vprintf`, `clinus_mpfr_vfprintf`) performs exactly one call to
the corresponding external library function with the same arguments and
returns its result unchanged. -/
theorem forwarding_single_call_verbatim :
    ∀ (g : GmpLib) (m : MpfrLib) (fmt src : String)
      (ap : VaList) (stream buf pp : Ptr) (size : Nat),
      ckalliope_vprintf g fmt ap =
        (g (GmpCall.vprintf fmt ap), [GmpCall.vprintf fmt ap]) ∧
      ckalliope_vfprintf g stream fmt ap =
        (g (GmpCall.vfprintf stream fmt ap),
         [GmpCall.vfprintf stream fmt ap]) ∧
      ckalliope_vsprintf g buf fmt ap =
        (g (GmpCall.vsprintf buf fmt ap), [GmpCall.vsprintf buf fmt ap]) ∧
      ckalliope_vsnprintf g buf size fmt ap =
        (g (GmpCall.vsnprintf buf size fmt ap),
         [GmpCall.vsnprintf buf size fmt ap]) ∧
      ckalliope_vasprintf g pp fmt ap =
        (g (GmpCall.vasprintf pp fmt ap), [GmpCall.vasprintf pp fmt ap]) ∧
      ckalliope_vscanf g fmt ap =
        (g (GmpCall.vscanf fmt ap), [GmpCall.vscanf fmt ap]) ∧
      ckalliope_vfscanf g stream fmt ap =
        (g (GmpCall.vfscanf stream fmt ap),
         [GmpCall.vfscanf stream fmt ap]) ∧
      ckalliope_vsscanf g src fmt ap =
        (g (GmpCall.vsscanf src fmt ap), [GmpCall.vsscanf src fmt ap]) ∧
      clinus_mpfr_vprintf m fmt ap =
        (m (MpfrCall.vprintf fmt ap), [MpfrCall.vprintf fmt ap]) ∧
      clinus_mpfr_vfprintf m stream fmt ap =
        (m (MpfrCall.vfprintf stream fmt ap),
         [MpfrCall.vfprintf stream fmt ap]) := by
  intros
  exact ⟨rfl, rfl, rfl, rfl, rfl, rfl, rfl, rfl, rfl, rfl⟩

/-- C6: for every destination handle, operand handle, and rounding-mode
code, each of `clinus_mpfr_rint_floor`, `clinus_mpfr_rint_ceil` and
`clinus_mpfr_rint_trunc` forwards to the external library's corresponding
operation with the rounding-mode code passed through unchanged and returns
the library's status code verbatim. -/
theorem rint_forwarding_rnd_passthrough :
    ∀ (m : MpfrLib) (rop op : Ptr) (rnd : Int),
      clinus_mpfr_rint_floor m rop op rnd =
        (m (MpfrCall.rint_floor rop op rnd),
         [MpfrCall.rint_floor rop op rnd]) ∧
      clinus_mpfr_rint_ceil m rop op rnd =
        (m (MpfrCall.rint_ceil rop op rnd),
         [MpfrCall.rint_ceil rop op rnd]) ∧
      clinus_mpfr_rint_trunc m rop op rnd =
        (m (MpfrCall.rint_trunc rop op rnd),
         [MpfrCall.rint_trunc rop op rnd]) := by
  intros
  exact ⟨rfl, rfl, rfl⟩

/-- C5: `clinus_get_prec_min` and `clinus_get_prec_max` are pure and
side-effect-free, return the same fixed integer on every call within one
process lifetime, and the minimum is strictly less than the maximum. -/
theorem prec_queries_constant_and_ordered :
    ∀ u v : Unit,
      clinus_get_prec_min u = MPFR_PREC_MIN ∧
      clinus_get_prec_max u = MPFR_PREC_MAX ∧
      clinus_get_prec_min u = clinus_get_prec_min v ∧
      clinus_get_prec_max u = clinus_get_prec_max v ∧
      clinus_get_prec_min u < clinus_get_prec_max v := by
  intro u v
  refine ⟨rfl, rfl, rfl, rfl, ?_⟩
  norm_num [clinus_get_prec_min, clinus_get_prec_max,
            MPFR_PREC_MIN, MPFR_PREC_MAX]

/-- C2: under a POSIX-conforming C library (a successful `freopen` returns
its stream argument), whenever `ckalliope_redirect_stdin_from_file` fails it
returns `-1` and the whole process state — in particular the standard-input
binding — is exactly what it was before the call. -/
theorem redirect_failure_neg_one_state_unchanged
    (env : OsEnv) (path : String) (s : ProcState)
    (hc : env.freopenPtr = STDIN_PTR)
    (hf : (ckalliope_redirect_stdin_from_file env path s).1 ≠ 0) :
    (ckalliope_redirect_stdin_from_file env path s).1 = -1 ∧
    (ckalliope_redirect_stdin_from_file env path s).2 = s := by
  cases hfp : env.files path with
  | none =>
      simp [ckalliope_redirect_stdin_from_file, freopen_file, hfp]
  | some bs =>
      simp [ckalliope_redirect_stdin_from_file, freopen_file, hfp, hc] at hf

/-- Witness for C2 at a path `env0` cannot open. -/
theorem redirect_failure_neg_one_state_unchanged_witness :
    (ckalliope_redirect_stdin_from_file env0 "missing.txt" s0).1 = -1 ∧
    (ckalliope_redirect_stdin_from_file env0 "missing.txt" s0).2 = s0 :=
  redirect_failure_neg_one_state_unchanged env0 "missing.txt" s0 rfl
    (by decide)

/-- C3: under a POSIX-conforming C library, redirecting to a readable file
returns `0`, re-binds standard input (stream object and descriptor 0) to
that file opened at position 0 with error and end-of-file flags cleared, and
the next read from standard input yields the first byte of the file. -/
theorem redirect_success_rebinds_and_resets
    (env : OsEnv) (path : String) (s : ProcState) (bs : List Nat)
    (hc : env.freopenPtr = STDIN_PTR) (hb : env.files path = some bs) :
    (ckalliope_redirect_stdin_from_file env path s).1 = 0 ∧
    (ckalliope_redirect_stdin_from_file env path s).2.stdinObj =
      ⟨true, STDIN_FILENO, false, false⟩ ∧
    (ckalliope_redirect_stdin_from_file env path s).2.fds STDIN_FILENO =
      some ⟨Source.file path, 0⟩ ∧
    (fgetc_stdin env (ckalliope_redirect_stdin_from_file env path s).2).1 =
      bs.get? 0 := by
  refine ⟨?_, ?_, ?_, ?_⟩ <;>
    simp [ckalliope_redirect_stdin_from_file, freopen_file, hb, hc,
          clearerr_stdin, rewind_stdin, fgetc_stdin, STDIN_FILENO]
  cases hg : bs[0]? <;> simp [hg]

/-- Witness for C3: redirecting `s0` to `in.txt` under `env0`; the first
byte read afterwards is 51. -/
theorem redirect_success_rebinds_and_resets_witness :
    (ckalliope_redirect_stdin_from_file env0 "in.txt" s0).1 = 0 ∧
    (ckalliope_redirect_stdin_from_file env0 "in.txt" s0).2.stdinObj =
      ⟨true, STDIN_FILENO, false, false⟩ ∧
    (ckalliope_redirect_stdin_from_file env0 "in.txt" s0).2.fds STDIN_FILENO =
      some ⟨Source.file "in.txt", 0⟩ ∧
    (fgetc_stdin env0
        (ckalliope_redirect_stdin_from_file env0 "in.txt" s0).2).1 =
      (some 51 : Option Nat) :=
  redirect_success_rebinds_and_resets env0 "in.txt" s0 [51, 46, 49] rfl rfl

/-- C4: `ckalliope_restore_stdin` re-binds descriptor 0 to the saved
descriptor first, then re-establishes the stdin stream atop it, then clears
flags and returns `0`; it returns `-1` when the duplication step fails
(saved descriptor not open) and when the stream re-establishment step
fails. -/
theorem restore_step_order_and_failures
    (env : OsEnv) (fd : Nat) (s : ProcState) :
    (s.fds fd = none → ckalliope_restore_stdin env fd s = (-1, s)) ∧
    (∀ d, s.fds fd = some d → env.freopenNullFails = true →
      (ckalliope_restore_stdin env fd s).1 = -1) ∧
    (∀ d, s.fds fd = some d → env.freopenNullFails = false →
      env.freopenPtr = STDIN_PTR →
      ckalliope_restore_stdin env fd s =
        (0, { s with
                fds := fun n =>
                  if n = STDIN_FILENO then some d else s.fds n,
                stdinObj := ⟨true, STDIN_FILENO, false, false⟩ })) := by
  refine ⟨?_, ?_, ?_⟩
  · intro h
    simp [ckalliope_restore_stdin, dup2, h]
  · intro d h hn
    simp [ckalliope_restore_stdin, dup2, h, freopen_null_stdin, hn,
          STDIN_FILENO]
  · intro d h hn hp
    simp [ckalliope_restore_stdin, dup2, h, freopen_null_stdin, hn, hp,
          clearerr_stdin, STDIN_FILENO]

/-- Witness for C4: restoring `s0`'s saved descriptor 5 under `env0`
succeeds and re-binds descriptor 0 to the saved entry. -/
theorem restore_step_order_and_failures_witness :
    ckalliope_restore_stdin env0 5 s0 =
      (0, { s0 with
              fds := fun n =>
                if n = STDIN_FILENO then some ⟨Source.other 7, 3⟩
                else s0.fds n,
              stdinObj := ⟨true, STDIN_FILENO, false, false⟩ }) :=
  (restore_step_order_and_failures env0 5 s0).2.2 ⟨Source.other 7, 3⟩
    rfl rfl rfl

/-- C7: on every input (any environment, path, descriptor and state), both
`ckalliope_redirect_stdin_from_file` and `ckalliope_restore_stdin` return
exactly `0` or `-1`; every failure cause collapses to the single generic
indicator `-1` and no other value can be returned. -/
theorem helpers_return_only_zero_or_neg_one :
    ∀ (env : OsEnv) (path : String) (fd : Nat) (s : ProcState),
      ((ckalliope_redirect_stdin_from_file env path s).1 = 0 ∨
        (ckalliope_redirect_stdin_from_file env path s).1 = -1) ∧
      ((ckalliope_restore_stdin env fd s).1 = 0 ∨
        (ckalliope_restore_stdin env fd s).1 = -1) := by
  intro env path fd s
  constructor
  · by_cases hp : env.freopenPtr = STDIN_PTR <;>
      cases hfp : env.files path <;>
        simp [ckalliope_redirect_stdin_from_file, freopen_file, hfp, hp]
  · by_cases hp : env.freopenPtr = STDIN_PTR <;>
      cases hnf : env.freopenNullFails <;>
        cases hfd : s.fds fd <;>
          simp [ckalliope_restore_stdin, dup2, freopen_null_stdin, hfd,
                hnf, hp, STDIN_FILENO]

/-- C8: on every execution, success or failure, the two helpers touch only
input-side stream state: the opaque output-stream state is untouched and no
descriptor other than the standard-input descriptor is modified. -/
theorem helpers_touch_only_input_state :
    ∀ (env : OsEnv) (path : String) (fd : Nat) (s : ProcState),
      ((ckalliope_redirect_stdin_from_file env path s).2.outState =
          s.outState ∧
        ∀ n, n ≠ STDIN_FILENO →
          (ckalliope_redirect_stdin_from_file env path s).2.fds n =
            s.fds n) ∧
      ((ckalliope_restore_stdin env fd s).2.outState = s.outState ∧
        ∀ n, n ≠ STDIN_FILENO →
          (ckalliope_restore_stdin env fd s).2.fds n = s.fds n) := by
  intro env path fd s
  refine ⟨⟨?_, ?_⟩, ?_, ?_⟩
  · by_cases hp : env.freopenPtr = STDIN_PTR <;>
      cases hfp : env.files path <;>
        simp [ckalliope_redirect_stdin_from_file, freopen_file, hfp, hp,
              clearerr_stdin, rewind_stdin]
  · intro n hn
    have hn0 : ¬ n = 0 := by simpa [STDIN_FILENO] using hn
    by_cases hp : env.freopenPtr = STDIN_PTR <;>
      cases hfp : env.files path <;>
        simp [ckalliope_redirect_stdin_from_file, freopen_file, hfp, hp,
              clearerr_stdin, rewind_stdin, STDIN_FILENO, hn0]
  · by_cases hp : env.freopenPtr = STDIN_PTR <;>
      cases hnf : env.freopenNullFails <;>
        cases hfd : s.fds fd <;>
          simp [ckalliope_restore_stdin, dup2, freopen_null_stdin, hfd,
                hnf, hp, clearerr_stdin, STDIN_FILENO]
  · intro n hn
    have hn0 : ¬ n = 0 := by simpa [STDIN_FILENO] using hn
    by_cases hp : env.freopenPtr = STDIN_PTR <;>
      cases hnf : env.freopenNullFails <;>
        cases hfd : s.fds fd <;>
          simp [ckalliope_restore_stdin, dup2, freopen_null_stdin, hfd,
                hnf, hp, clearerr_stdin, STDIN_FILENO, hn0]

/-- Witness for C8 at concrete inputs, observing descriptor 1 (an
output-side descriptor) and the opaque output state. -/
theorem helpers_touch_only_input_state_witness :
    (ckalliope_redirect_stdin_from_file env0 "in.txt" s0).2.outState =
        s0.outState ∧
    (ckalliope_redirect_stdin_from_file env0 "in.txt" s0).2.fds 1 =
        s0.fds 1 ∧
    (ckalliope_restore_stdin env0 5 s0).2.outState = s0.outState ∧
    (ckalliope_restore_stdin env0 5 s0).2.fds 1 = s0.fds 1 :=
  ⟨(helpers_touch_only_input_state env0 "in.txt" 5 s0).1.1,
   (helpers_touch_only_input_state env0 "in.txt" 5 s0).1.2 1 (by decide),
   (helpers_touch_only_input_state env0 "in.txt" 5 s0).2.1,
   (helpers_touch_only_input_state env0 "in.txt" 5 s0).2.2 1 (by decide)⟩

/-- C9: when the saved descriptor is open, the reopen extension is
available, but the C library's `freopen(NULL, "r", stdin)` returns a
non-null stream other than `stdin`, `ckalliope_restore_stdin` takes its
third failure branch: it returns `-1` even though descriptor 0 has already
been re-bound to the saved descriptor and the stream has been
re-established — the failure leaves this intermediate state behind. -/
theorem restore_third_failure_after_rebind
    (env : OsEnv) (fd : Nat) (s : ProcState) (d : OpenDesc)
    (h1 : s.fds fd = some d) (h2 : env.freopenNullFails = false)
    (h3 : env.freopenPtr ≠ STDIN_PTR) :
    (ckalliope_restore_stdin env fd s).1 = -1 ∧
    (ckalliope_restore_stdin env fd s).2.fds STDIN_FILENO = some d ∧
    (ckalliope_restore_stdin env fd s).2.stdinObj =
      ⟨true, STDIN_FILENO, false, false⟩ := by
  simp [ckalliope_restore_stdin, dup2, h1, freopen_null_stdin, h2, h3,
        STDIN_FILENO]

/-- Witness for C9: under `envBad` (whose `freopen` yields a foreign
pointer), restoring descriptor 5 of `s0` fails with `-1` yet descriptor 0
is left re-bound to the saved entry. -/
theorem restore_third_failure_after_rebind_witness :
    (ckalliope_restore_stdin envBad 5 s0).1 = -1 ∧
    (ckalliope_restore_stdin envBad 5 s0).2.fds STDIN_FILENO =
      some ⟨Source.other 7, 3⟩ ∧
    (ckalliope_restore_stdin envBad 5 s0).2.stdinObj =
      ⟨true, STDIN_FILENO, false, false⟩ :=
  restore_third_failure_after_rebind envBad 5 s0 ⟨Source.other 7, 3⟩
    rfl rfl (by decide)

/-- C10: `ckalliope_restore_stdin` enforces no pairing with a preceding
redirect: with a closed saved descriptor it returns `-1` leaving the state
unchanged, and its return value depends only on the saved descriptor's
entry, so two states agreeing there — one that went through a redirect and
one that did not — get the identical outcome. -/
theorem restore_enforces_no_pairing
    (env : OsEnv) (fd : Nat) (s t : ProcState) :
    (s.fds fd = none → ckalliope_restore_stdin env fd s = (-1, s)) ∧
    (s.fds fd = t.fds fd →
      (ckalliope_restore_stdin env fd s).1 =
        (ckalliope_restore_stdin env fd t).1) := by
  constructor
  · intro h
    simp [ckalliope_restore_stdin, dup2, h]
  · intro hst
    cases hfd : s.fds fd with
    | none =>
        have ht : t.fds fd = none := hst.symm.trans hfd
        simp [ckalliope_restore_stdin, dup2, hfd, ht]
    | some d =>
        have ht : t.fds fd = some d := hst.symm.trans hfd
        by_cases hp : env.freopenPtr = STDIN_PTR <;>
          cases hnf : env.freopenNullFails <;>
            simp [ckalliope_restore_stdin, dup2, hfd, ht,
                  freopen_null_stdin, hnf, hp, STDIN_FILENO]

/-- Witness for C10: restoring the never-opened descriptor 7 of `s0` fails
with state unchanged, and restoring descriptor 5 returns the same value
from the pre-redirect state `s0` and the post-redirect state `sRedir`. -/
theorem restore_enforces_no_pairing_witness :
    ckalliope_restore_stdin env0 7 s0 = (-1, s0) ∧
    (ckalliope_restore_stdin env0 5 s0).1 =
      (ckalliope_restore_stdin env0 5 sRedir).1 :=
  ⟨(restore_enforces_no_pairing env0 7 s0 s0).1 (by decide),
   (restore_enforces_no_pairing env0 5 s0 sRedir).2 (by decide)⟩
